import Mathlib

/-!
Shallow embedding of `examples/provisioning/wifi_prov_mgr/main/app_main.c`.

The C file is glue code over the ESP-IDF SDK: it registers an event handler,
configures and starts the Wi-Fi provisioning manager over BLE, exposes one
custom protocomm endpoint, and blinks an LED in an infinite heartbeat loop.
We embed each function as a pure Lean function from the results of the
external SDK calls (an environment record) to the list of observable effects
it performs, with `ESP_ERROR_CHECK` modelled as an abort that cuts the trace
short.  Numeric values of the SDK error and event-id constants come from the
ESP-IDF headers (external to this repository); only their distinctness is
used by any proof.
-/

/-- `esp_err_t` success code `ESP_OK` (value from esp_err.h). -/
def ESP_OK : Int := 0

/-- `ESP_ERR_NO_MEM` (value from esp_err.h). -/
def ESP_ERR_NO_MEM : Int := 0x101

/-- `ESP_ERR_NVS_NO_FREE_PAGES` (value from nvs.h). -/
def ESP_ERR_NVS_NO_FREE_PAGES : Int := 0x110d

/-- `ESP_ERR_NVS_NEW_VERSION_FOUND` (value from nvs.h). -/
def ESP_ERR_NVS_NEW_VERSION_FOUND : Int := 0x1110

/-- `ESP_EVENT_ANY_ID` (value from esp_event.h). -/
def ESP_EVENT_ANY_ID : Int := -1

/-- `wifi_prov_cb_event_t` member `WIFI_PROV_START`. -/
def WIFI_PROV_START : Int := 1

/-- `wifi_prov_cb_event_t` member `WIFI_PROV_CRED_RECV`. -/
def WIFI_PROV_CRED_RECV : Int := 2

/-- `wifi_prov_cb_event_t` member `WIFI_PROV_CRED_FAIL`. -/
def WIFI_PROV_CRED_FAIL : Int := 3

/-- `wifi_prov_cb_event_t` member `WIFI_PROV_CRED_SUCCESS`. -/
def WIFI_PROV_CRED_SUCCESS : Int := 4

/-- `wifi_prov_cb_event_t` member `WIFI_PROV_END`. -/
def WIFI_PROV_END : Int := 5

/-- `wifi_event_t` member `WIFI_EVENT_SCAN_DONE`. -/
def WIFI_EVENT_SCAN_DONE : Int := 1

/-- `wifi_event_t` member `WIFI_EVENT_STA_START`. -/
def WIFI_EVENT_STA_START : Int := 2

/-- `wifi_event_t` member `WIFI_EVENT_STA_DISCONNECTED`. -/
def WIFI_EVENT_STA_DISCONNECTED : Int := 5

/-- `ip_event_t` member `IP_EVENT_STA_GOT_IP`. -/
def IP_EVENT_STA_GOT_IP : Int := 0

/-- `protocomm_transport_ble_event_t` member `PROTOCOMM_TRANSPORT_BLE_CONNECTED`. -/
def PROTOCOMM_TRANSPORT_BLE_CONNECTED : Int := 0

/-- `protocomm_transport_ble_event_t` member `PROTOCOMM_TRANSPORT_BLE_DISCONNECTED`. -/
def PROTOCOMM_TRANSPORT_BLE_DISCONNECTED : Int := 1

/-- `protocomm_security_session_event_t` member `PROTOCOMM_SECURITY_SESSION_SETUP_OK`. -/
def PROTOCOMM_SECURITY_SESSION_SETUP_OK : Int := 0

/-- `protocomm_security_session_event_t` member with invalid security params. -/
def PROTOCOMM_SECURITY_SESSION_INVALID_SECURITY_PARAMS : Int := 1

/-- `protocomm_security_session_event_t` member for credentials mismatch. -/
def PROTOCOMM_SECURITY_SESSION_CREDENTIALS_MISMATCH : Int := 2

/-- `wifi_prov_sta_fail_reason_t` member `WIFI_PROV_STA_AUTH_ERROR`. -/
def WIFI_PROV_STA_AUTH_ERROR : Int := 0

/-- The event bases the program can receive.  In C these are interned
pointers compared by `==`; `other n` stands for any event base distinct
from the five named ones. -/
inductive EventBase where
  | WIFI_PROV_EVENT
  | WIFI_EVENT
  | IP_EVENT
  | PROTOCOMM_TRANSPORT_BLE_EVENT
  | PROTOCOMM_SECURITY_SESSION_EVENT
  | other (n : Nat)
deriving DecidableEq, Repr

/-- The two C functions of the file that are passed around as callbacks. -/
inductive Handler where
  | event_handler
  | custom_prov_data_handler
deriving DecidableEq, Repr

/-- An observable effect performed by the program: a log line, an SDK call,
a GPIO operation, a FreeRTOS delay, or the abort raised by a failing
`ESP_ERROR_CHECK`. -/
inductive Effect where
  | logI (msg : String)
  | logE (msg : String)
  | resetSmStateOnFailure
  | resetSmStateForReprovision
  | deinit
  | isProvisioned
  | wifiConnect
  | nvsFlashInit
  | nvsFlashErase
  | netifInit
  | eventLoopCreateDefault
  | handlerRegister (h : Handler) (base : EventBase) (id : Int)
  | createDefaultWifiSta
  | wifiInit
  | provMgrInit
  | getMac
  | setServiceUuid
  | endpointCreate (name : String)
  | disableAutoStop (ms : Int)
  | startProvisioning (security : Int) (pop : String) (name : List Char) (key : Option String)
  | endpointRegister (name : String) (h : Handler)
  | abort
  | gpioResetPin (pin : Nat)
  | gpioSetDirectionOutput (pin : Nat)
  | gpioSetLevel (pin : Nat) (level : Nat)
  | taskDelay (ticks : Nat)
deriving DecidableEq, Repr

/-- Results of the external SDK calls that `event_handler` makes or reads:
the event payloads handed to it and the return values of the calls it
issues. -/
structure HandlerEnv where
  /-- `*reason` at a `WIFI_PROV_CRED_FAIL` event. -/
  credFailReason : Int
  /-- SSID string in the `wifi_sta_config_t` payload of `WIFI_PROV_CRED_RECV`. -/
  ssid : String
  /-- Password string in the same payload. -/
  password : String
  /-- Rendered IP address of the `IP_EVENT_STA_GOT_IP` payload. -/
  ip : String
  /-- Return value of `wifi_prov_mgr_is_provisioned`. -/
  isProvisionedRet : Int
  /-- Out-parameter written by `wifi_prov_mgr_is_provisioned`. -/
  provisioned : Bool

/-- Embedding of the C `event_handler`: the list of effects it performs for
a given event base, event id and environment.  `ESP_ERROR_CHECK` around
`wifi_prov_mgr_is_provisioned` aborts when the call fails;
`esp_wifi_connect` is wrapped in `ESP_ERROR_CHECK_WITHOUT_ABORT`, which
never aborts. -/
def event_handler (event_base : EventBase) (event_id : Int) (env : HandlerEnv) : List Effect :=
  if event_base = EventBase.WIFI_PROV_EVENT then
    if event_id = WIFI_PROV_START then
      [Effect.logI "Provisioning started"]
    else if event_id = WIFI_PROV_CRED_RECV then
      [Effect.logI ("Received Wi-Fi credentials\n\tSSID     : " ++ env.ssid ++
        "\n\tPassword : " ++ env.password)]
    else if event_id = WIFI_PROV_CRED_FAIL then
      [Effect.logE ("Provisioning failed!\n\tReason : " ++
         (if env.credFailReason = WIFI_PROV_STA_AUTH_ERROR then
            "Wi-Fi station authentication failed"
          else "Wi-Fi access-point not found") ++
         "\n\tPlease reset to factory and retry provisioning"),
       Effect.logI "Failed to connect with provisioned AP, reseting provisioned credentials",
       Effect.resetSmStateOnFailure]
    else if event_id = WIFI_PROV_CRED_SUCCESS then
      [Effect.logI "Provisioning successful", Effect.resetSmStateForReprovision]
    else if event_id = WIFI_PROV_END then
      [Effect.logI "Provisioning ENDED", Effect.deinit]
    else []
  else if event_base = EventBase.WIFI_EVENT then
    if event_id = WIFI_EVENT_STA_START then
      [Effect.logI "WiFi Started in STA mode", Effect.isProvisioned] ++
      (if env.isProvisionedRet = ESP_OK then
         (if env.provisioned then
            [Effect.logI "WiFi credentials are present, so attempt to connect",
             Effect.wifiConnect]
          else [])
       else [Effect.abort])
    else if event_id = WIFI_EVENT_STA_DISCONNECTED then
      [Effect.logI "Disconnected"]
    else if event_id = WIFI_EVENT_SCAN_DONE then
      [Effect.logI "WiFi Scan Complete"]
    else []
  else if event_base = EventBase.IP_EVENT then
    if event_id = IP_EVENT_STA_GOT_IP then
      [Effect.logI ("Connected with IP Address:" ++ env.ip)]
    else []
  else if event_base = EventBase.PROTOCOMM_TRANSPORT_BLE_EVENT then
    if event_id = PROTOCOMM_TRANSPORT_BLE_CONNECTED then
      [Effect.logI "BLE transport: Connected!"]
    else if event_id = PROTOCOMM_TRANSPORT_BLE_DISCONNECTED then
      [Effect.logI "BLE transport: Disconnected!"]
    else []
  else if event_base = EventBase.PROTOCOMM_SECURITY_SESSION_EVENT then
    if event_id = PROTOCOMM_SECURITY_SESSION_SETUP_OK then
      [Effect.logI "Secured session established!"]
    else if event_id = PROTOCOMM_SECURITY_SESSION_INVALID_SECURITY_PARAMS then
      [Effect.logE "Received invalid security parameters for establishing secure session!"]
    else if event_id = PROTOCOMM_SECURITY_SESSION_CREDENTIALS_MISMATCH then
      [Effect.logE "Received incorrect username and/or PoP for establishing secure session!"]
    else []
  else []

/-- Sequencing of two fragments (effects emitted, completed-normally flag):
if the first aborted, the second never runs. -/
def seqc (a b : List Effect × Bool) : List Effect × Bool :=
  if a.2 then (a.1 ++ b.1, b.2) else a

/-- Sequencing of a list of fragments, left to right. -/
def seqList : List (List Effect × Bool) → List Effect × Bool
  | [] => ([], true)
  | c :: l => seqc c (seqList l)

/-- `ESP_ERROR_CHECK(x)`: no effect when `x == ESP_OK`, abort otherwise. -/
def espErrorCheck (ret : Int) : List Effect × Bool :=
  if ret = ESP_OK then ([], true) else ([Effect.abort], false)

/-- Return values of the SDK calls made by `init_esp`. -/
structure EspEnv where
  /-- Result of the first `nvs_flash_init`. -/
  nvsInitRet1 : Int
  /-- Result of `nvs_flash_erase`. -/
  nvsEraseRet : Int
  /-- Result of the retried `nvs_flash_init`. -/
  nvsInitRet2 : Int
  /-- Result of `esp_netif_init`. -/
  netifRet : Int
  /-- Result of `esp_event_loop_create_default`. -/
  eventLoopRet : Int
  /-- Result of registering for `WIFI_PROV_EVENT`. -/
  regProvRet : Int
  /-- Result of registering for `PROTOCOMM_TRANSPORT_BLE_EVENT`. -/
  regBleRet : Int
  /-- Result of registering for `PROTOCOMM_SECURITY_SESSION_EVENT`. -/
  regSecRet : Int
  /-- Result of registering for `WIFI_EVENT`. -/
  regWifiRet : Int
  /-- Result of registering for `IP_EVENT`. -/
  regIpRet : Int
  /-- Result of `esp_wifi_init`. -/
  wifiInitRet : Int

/-- The NVS part of `init_esp`: first `nvs_flash_init`, and if it reported
`ESP_ERR_NVS_NO_FREE_PAGES` or `ESP_ERR_NVS_NEW_VERSION_FOUND`, an erase
and a retried init, both under `ESP_ERROR_CHECK`. -/
def init_esp_nvs (e : EspEnv) : List Effect × Bool :=
  seqList [([Effect.nvsFlashInit], true),
    if e.nvsInitRet1 = ESP_ERR_NVS_NO_FREE_PAGES ∨
       e.nvsInitRet1 = ESP_ERR_NVS_NEW_VERSION_FOUND then
      seqList [([Effect.nvsFlashErase], true), espErrorCheck e.nvsEraseRet,
               ([Effect.nvsFlashInit], true), espErrorCheck e.nvsInitRet2]
    else ([], true)]

/-- The fragments of `init_esp` after `esp_netif_init` is issued. -/
def init_esp_tail (e : EspEnv) : List (List Effect × Bool) :=
  [espErrorCheck e.netifRet,
   ([Effect.eventLoopCreateDefault], true), espErrorCheck e.eventLoopRet,
   ([Effect.handlerRegister Handler.event_handler EventBase.WIFI_PROV_EVENT ESP_EVENT_ANY_ID], true),
   espErrorCheck e.regProvRet,
   ([Effect.handlerRegister Handler.event_handler EventBase.PROTOCOMM_TRANSPORT_BLE_EVENT ESP_EVENT_ANY_ID], true),
   espErrorCheck e.regBleRet,
   ([Effect.handlerRegister Handler.event_handler EventBase.PROTOCOMM_SECURITY_SESSION_EVENT ESP_EVENT_ANY_ID], true),
   espErrorCheck e.regSecRet,
   ([Effect.handlerRegister Handler.event_handler EventBase.WIFI_EVENT ESP_EVENT_ANY_ID], true),
   espErrorCheck e.regWifiRet,
   ([Effect.handlerRegister Handler.event_handler EventBase.IP_EVENT IP_EVENT_STA_GOT_IP], true),
   espErrorCheck e.regIpRet,
   ([Effect.createDefaultWifiSta], true),
   ([Effect.wifiInit], true), espErrorCheck e.wifiInitRet]

/-- Embedding of `init_esp`: NVS bootstrap, then TCP/IP and default event
loop, then the five `esp_event_handler_register` calls, then Wi-Fi init. -/
def init_esp (e : EspEnv) : List Effect × Bool :=
  seqc (init_esp_nvs e) (seqList (([Effect.netifInit], true) :: init_esp_tail e))

/-- One uppercase hexadecimal digit, as printed by `%X` (0-9 then A-F). -/
def hexDigit (n : Nat) : Char :=
  if n < 10 then Char.ofNat (48 + n) else Char.ofNat (55 + n)

/-- The two characters `%02X` prints for a byte. -/
def hex2 (b : Nat) : List Char :=
  [hexDigit (b / 16), hexDigit (b % 16)]

/-- The full string `snprintf` formats in `get_device_service_name`:
`"Kaivac_"` then the hex of MAC bytes 3, 4, 5 separated by underscores. -/
def service_name_formatted (mac : Fin 6 → Fin 256) : List Char :=
  "Kaivac_".data ++ hex2 (mac 3) ++ ['_'] ++ hex2 (mac 4) ++ ['_'] ++ hex2 (mac 5)

/-- Embedding of `get_device_service_name`: the NUL-terminated contents the
function leaves in a buffer of size `max` (for `max > 0`, `snprintf` stores
at most `max - 1` characters plus the terminator). -/
def get_device_service_name (mac : Fin 6 → Fin 256) (max : Nat) : List Char :=
  (service_name_formatted mac).take (max - 1)

/-- The `pop` proof-of-possession string of `init_prov`. -/
def security1_pop : String := "abcd1234"

/-- Results of the external SDK calls made by `init_prov`, and the station
MAC address `esp_wifi_get_mac` reports. -/
structure ProvEnv where
  /-- Result of `wifi_prov_mgr_init`. -/
  mgrInitRet : Int
  /-- Station MAC address read by `get_device_service_name`. -/
  mac : Fin 6 → Fin 256
  /-- Result of `wifi_prov_scheme_ble_set_service_uuid`. -/
  uuidRet : Int
  /-- Result of `wifi_prov_mgr_endpoint_create`. -/
  endpointCreateRet : Int
  /-- Result of `wifi_prov_mgr_disable_auto_stop`. -/
  autoStopRet : Int
  /-- Result of `wifi_prov_mgr_start_provisioning`. -/
  startRet : Int

/-- Embedding of `init_prov`: manager init, service-name derivation, custom
service UUID, creation of the `custom-data` endpoint, disabling auto stop,
starting provisioning with security 1 and pop `"abcd1234"`, and finally
registering `custom_prov_data_handler` on the endpoint (this last call is
not wrapped in `ESP_ERROR_CHECK`). -/
def init_prov (p : ProvEnv) : List Effect × Bool :=
  seqList [
    ([Effect.provMgrInit], true), espErrorCheck p.mgrInitRet,
    ([Effect.getMac], true),
    ([Effect.setServiceUuid], true), espErrorCheck p.uuidRet,
    ([Effect.endpointCreate "custom-data"], true), espErrorCheck p.endpointCreateRet,
    ([Effect.disableAutoStop 1000], true), espErrorCheck p.autoStopRet,
    ([Effect.startProvisioning 1 security1_pop (get_device_service_name p.mac 16) none], true),
    espErrorCheck p.startRet,
    ([Effect.endpointRegister "custom-data" Handler.custom_prov_data_handler], true)]

/-- The bytes `strdup` copies in `custom_prov_data_handler`: `"SUCCESS"`
followed by the NUL terminator. -/
def successBuf : List Nat := "SUCCESS".data.map Char.toNat ++ [0]

/-- Result of one invocation of `custom_prov_data_handler`: the returned
`esp_err_t`, the value written through `outbuf` (`none` = the null pointer),
the value written through `outlen` (`none` = the out-parameter was never
assigned), and the log lines emitted. -/
structure HandlerResult where
  ret : Int
  outbuf : Option (List Nat)
  outlen : Option Int
  logs : List Effect
deriving DecidableEq, Repr

/-- Embedding of `custom_prov_data_handler`.  `allocOk` is whether the
`strdup` allocation succeeds (the one external effect of the function). -/
def custom_prov_data_handler (session_id : Nat) (inbuf : Option (List Nat)) (inlen : Int)
    (priv_data : Option Nat) (allocOk : Bool) : HandlerResult :=
  let rcvLogs : List Effect :=
    match inbuf with
    | some bytes =>
        [Effect.logI ("Received data: " ++
          String.mk (((bytes.take inlen.toNat).map Char.ofNat)))]
    | none => []
  if allocOk then
    { ret := ESP_OK
      outbuf := some successBuf
      outlen := some ((("SUCCESS".length : Int)) + 1)
      logs := rcvLogs }
  else
    { ret := ESP_ERR_NO_MEM
      outbuf := none
      outlen := none
      logs := rcvLogs ++ [Effect.logE "System out of memory"] }

/-- `app_heartbeat_delay_ms` in `app_main`. -/
def app_heartbeat_delay_ms : Int := 5000

/-- `led_delay_ms` in `app_main`. -/
def led_delay_ms : Int := 1000

/-- `interval = app_heartbeat_delay_ms / led_delay_ms`. -/
def blink_interval : Int := app_heartbeat_delay_ms / led_delay_ms

/-- `portTICK_PERIOD_MS`: FreeRTOS tick period, external configuration (the
default 10 ms tick); no claim depends on its value. -/
def portTICK_PERIOD_MS : Nat := 10

/-- C logical negation `!` on the `uint8_t` `led_state`. -/
def lnot (x : Nat) : Nat := if x = 0 then 1 else 0

/-- One iteration of the inner blink loop: write the current `led_state` to
GPIO 5, negate it, and delay. -/
def blink_step (led : Nat) : List Effect × Nat :=
  ([Effect.gpioSetLevel 5 led, Effect.taskDelay (led_delay_ms.toNat / portTICK_PERIOD_MS)],
   lnot led)

/-- `m` iterations of the inner blink loop from LED state `led`. -/
def blink_loop : Nat → Nat → List Effect × Nat
  | 0, led => ([], led)
  | m + 1, led =>
      let s := blink_step led
      let r := blink_loop m s.2
      (s.1 ++ r.1, r.2)

/-- One iteration of the outer `while (1)` heartbeat loop: the heartbeat log
line followed by `interval` blink iterations. -/
def outer_iteration (led : Nat) : List Effect × Nat :=
  let b := blink_loop blink_interval.toNat led
  (Effect.logI "===== ===== ===== < App Heartbeat > ===== ===== =====" :: b.1, b.2)

/-- `n` iterations of the outer heartbeat loop from LED state `led`. -/
def app_main_loop : Nat → Nat → List Effect × Nat
  | 0, led => ([], led)
  | n + 1, led =>
      let it := outer_iteration led
      let r := app_main_loop n it.2
      (it.1 ++ r.1, r.2)

/-- The GPIO setup `app_main` performs before entering the loop. -/
def app_main_setup : List Effect :=
  [Effect.gpioResetPin 5, Effect.gpioSetDirectionOutput 5]

/-- Embedding of `app_main`, observed for `n` iterations of its infinite
loop: `init_esp`, then `init_prov`, then the LED setup, then the loop.  The
loop guard of the source is the constant `1`, so the trace only ever grows
with `n`. -/
def app_main (e : EspEnv) (p : ProvEnv) (n : Nat) : List Effect × Bool :=
  seqc (init_esp e)
    (seqc (init_prov p) (app_main_setup ++ (app_main_loop n 0).1, true))

/-- An effect of `seqc a b` is an effect of `a` or of `b`. -/
theorem mem_seqc {x : Effect} {a b : List Effect × Bool} (h : x ∈ (seqc a b).1) :
    x ∈ a.1 ∨ x ∈ b.1 := by
  unfold seqc at h
  split at h <;> simp_all

/-- An effect of a sequenced list of fragments comes from one of them. -/
theorem mem_seqList {x : Effect} : ∀ {l : List (List Effect × Bool)},
    x ∈ (seqList l).1 → ∃ c ∈ l, x ∈ c.1 := by
  intro l
  induction l with
  | nil => intro h; simp [seqList] at h
  | cons c l ih =>
      intro h
      rcases mem_seqc h with h1 | h2
      · exact ⟨c, by simp, h1⟩
      · obtain ⟨d, hd, hxd⟩ := ih h2
        exact ⟨d, by simp [hd], hxd⟩

/-- The only effect `ESP_ERROR_CHECK` itself can emit is the abort. -/
theorem mem_espErrorCheck {x : Effect} {r : Int} (h : x ∈ (espErrorCheck r).1) :
    x = Effect.abort := by
  unfold espErrorCheck at h
  split at h <;> simp_all

/-- After `esp_netif_init` is issued, `init_esp` never touches NVS again:
no fragment of the tail emits `nvs_flash_init` or `nvs_flash_erase`. -/
theorem init_esp_tail_mem (e : EspEnv) {x : Effect}
    (hx : x ∈ (seqList (init_esp_tail e)).1) :
    x ≠ Effect.nvsFlashInit ∧ x ≠ Effect.nvsFlashErase := by
  obtain ⟨c, hc, hxc⟩ := mem_seqList hx
  simp [init_esp_tail] at hc
  rcases hc with rfl|rfl|rfl|rfl|rfl|rfl|rfl|rfl|rfl|rfl|rfl|rfl|rfl|rfl|rfl|rfl|rfl <;>
    first
      | (have hab := mem_espErrorCheck hxc; simp_all)
      | simp_all

/-- C6: when the first `nvs_flash_init` reports `ESP_ERR_NVS_NO_FREE_PAGES`
or `ESP_ERR_NVS_NEW_VERSION_FOUND` and the checked erase and retry succeed,
`init_esp` erases the NVS partition and retries `nvs_flash_init` exactly
once — the trace starts `init, erase, init, netif_init` and the rest of the
run performs no further NVS init or erase. -/
theorem nvs_erase_retry_once (e : EspEnv)
    (h1 : e.nvsInitRet1 = ESP_ERR_NVS_NO_FREE_PAGES ∨
          e.nvsInitRet1 = ESP_ERR_NVS_NEW_VERSION_FOUND)
    (h2 : e.nvsEraseRet = ESP_OK) (h3 : e.nvsInitRet2 = ESP_OK) :
    (init_esp e).1 =
      Effect.nvsFlashInit :: Effect.nvsFlashErase :: Effect.nvsFlashInit ::
        Effect.netifInit :: (seqList (init_esp_tail e)).1 ∧
    Effect.nvsFlashInit ∉ (seqList (init_esp_tail e)).1 ∧
    Effect.nvsFlashErase ∉ (seqList (init_esp_tail e)).1 := by
  refine ⟨?_, fun hx => (init_esp_tail_mem e hx).1 rfl,
    fun hx => (init_esp_tail_mem e hx).2 rfl⟩
  rcases h1 with h1 | h1 <;>
    simp [init_esp, init_esp_nvs, seqList, seqc, espErrorCheck, h1, h2, h3,
      ESP_OK, ESP_ERR_NVS_NO_FREE_PAGES, ESP_ERR_NVS_NEW_VERSION_FOUND]

/-- An `EspEnv` in which every SDK call succeeds except the first
`nvs_flash_init`, which reports truncated NVS. -/
def espEnvRetry : EspEnv :=
  { nvsInitRet1 := ESP_ERR_NVS_NO_FREE_PAGES, nvsEraseRet := ESP_OK,
    nvsInitRet2 := ESP_OK, netifRet := ESP_OK, eventLoopRet := ESP_OK,
    regProvRet := ESP_OK, regBleRet := ESP_OK, regSecRet := ESP_OK,
    regWifiRet := ESP_OK, regIpRet := ESP_OK, wifiInitRet := ESP_OK }

/-- Witness for `nvs_erase_retry_once` at a concrete environment. -/
theorem nvs_erase_retry_once_witness :
    (espEnvRetry.nvsInitRet1 = ESP_ERR_NVS_NO_FREE_PAGES ∨
       espEnvRetry.nvsInitRet1 = ESP_ERR_NVS_NEW_VERSION_FOUND) ∧
    espEnvRetry.nvsEraseRet = ESP_OK ∧ espEnvRetry.nvsInitRet2 = ESP_OK ∧
    ((init_esp espEnvRetry).1 =
      Effect.nvsFlashInit :: Effect.nvsFlashErase :: Effect.nvsFlashInit ::
        Effect.netifInit :: (seqList (init_esp_tail espEnvRetry)).1 ∧
     Effect.nvsFlashInit ∉ (seqList (init_esp_tail espEnvRetry)).1 ∧
     Effect.nvsFlashErase ∉ (seqList (init_esp_tail espEnvRetry)).1) :=
  ⟨Or.inl rfl, rfl, rfl, nvs_erase_retry_once espEnvRetry (Or.inl rfl) rfl rfl⟩

/-- C10: when the first `nvs_flash_init` returns anything other than the two
truncation codes, `init_esp` neither aborts on it nor erases nor retries:
the trace goes straight from the single `nvs_flash_init` to
`esp_netif_init`, and no NVS call occurs later. -/
theorem nvs_other_error_ignored (e : EspEnv)
    (h1 : e.nvsInitRet1 ≠ ESP_ERR_NVS_NO_FREE_PAGES)
    (h2 : e.nvsInitRet1 ≠ ESP_ERR_NVS_NEW_VERSION_FOUND) :
    (init_esp e).1 =
      Effect.nvsFlashInit :: Effect.netifInit :: (seqList (init_esp_tail e)).1 ∧
    Effect.nvsFlashErase ∉ (init_esp e).1 ∧
    Effect.nvsFlashInit ∉ Effect.netifInit :: (seqList (init_esp_tail e)).1 := by
  have htrace : (init_esp e).1 =
      Effect.nvsFlashInit :: Effect.netifInit :: (seqList (init_esp_tail e)).1 := by
    simp [init_esp, init_esp_nvs, seqList, seqc, h1, h2]
  refine ⟨htrace, ?_, ?_⟩
  · rw [htrace]
    intro hx
    simp only [List.mem_cons] at hx
    rcases hx with h | h | hx
    · exact absurd h (by decide)
    · exact absurd h (by decide)
    · exact (init_esp_tail_mem e hx).2 rfl
  · intro hx
    simp only [List.mem_cons] at hx
    rcases hx with h | hx
    · exact absurd h (by decide)
    · exact (init_esp_tail_mem e hx).1 rfl

/-- An `EspEnv` in which the first `nvs_flash_init` fails with a generic
error (`ESP_FAIL = -1`) and everything else succeeds. -/
def espEnvOtherErr : EspEnv :=
  { nvsInitRet1 := -1, nvsEraseRet := ESP_OK,
    nvsInitRet2 := ESP_OK, netifRet := ESP_OK, eventLoopRet := ESP_OK,
    regProvRet := ESP_OK, regBleRet := ESP_OK, regSecRet := ESP_OK,
    regWifiRet := ESP_OK, regIpRet := ESP_OK, wifiInitRet := ESP_OK }

/-- Witness for `nvs_other_error_ignored` at a concrete environment. -/
theorem nvs_other_error_ignored_witness :
    espEnvOtherErr.nvsInitRet1 ≠ ESP_ERR_NVS_NO_FREE_PAGES ∧
    espEnvOtherErr.nvsInitRet1 ≠ ESP_ERR_NVS_NEW_VERSION_FOUND ∧
    ((init_esp espEnvOtherErr).1 =
      Effect.nvsFlashInit :: Effect.netifInit ::
        (seqList (init_esp_tail espEnvOtherErr)).1 ∧
     Effect.nvsFlashErase ∉ (init_esp espEnvOtherErr).1 ∧
     Effect.nvsFlashInit ∉
       Effect.netifInit :: (seqList (init_esp_tail espEnvOtherErr)).1) :=
  ⟨by decide, by decide,
   nvs_other_error_ignored espEnvOtherErr (by decide) (by decide)⟩

/-- The `esp_event_handler_register` calls recorded in a trace:
(callback, event base, event id) triples. -/
def regsOf (t : List Effect) : List (Handler × EventBase × Int) :=
  t.filterMap (fun e =>
    match e with
    | Effect.handlerRegister h b i => some (h, b, i)
    | _ => none)

/-- An `EspEnv` in which every SDK call succeeds. -/
def allOkEspEnv : EspEnv :=
  { nvsInitRet1 := ESP_OK, nvsEraseRet := ESP_OK,
    nvsInitRet2 := ESP_OK, netifRet := ESP_OK, eventLoopRet := ESP_OK,
    regProvRet := ESP_OK, regBleRet := ESP_OK, regSecRet := ESP_OK,
    regWifiRet := ESP_OK, regIpRet := ESP_OK, wifiInitRet := ESP_OK }

/-- A `HandlerEnv` with empty payloads and a successful
`wifi_prov_mgr_is_provisioned` reporting not provisioned. -/
def handlerEnv0 : HandlerEnv :=
  { credFailReason := WIFI_PROV_STA_AUTH_ERROR, ssid := "", password := "",
    ip := "", isProvisionedRet := ESP_OK, provisioned := false }

/-- C1 does not hold as stated: a successful `init_esp` registers
`event_handler` for five — not four — event bases, all distinct. -/
theorem registered_event_bases_ne_four :
    ((regsOf (init_esp allOkEspEnv).1).map (fun r => r.2.1)).length = 5 ∧
    ((regsOf (init_esp allOkEspEnv).1).map (fun r => r.2.1)).Nodup ∧
    ¬ ((regsOf (init_esp allOkEspEnv).1).map (fun r => r.2.1)).length = 4 := by
  decide

/-- C1 (amended): `init_esp` registers the single callback `event_handler`
for exactly five external event bases (`WIFI_PROV_EVENT`,
`PROTOCOMM_TRANSPORT_BLE_EVENT`, `PROTOCOMM_SECURITY_SESSION_EVENT`,
`WIFI_EVENT`, `IP_EVENT`); the callback produces effects for each of the
five and ignores every other event base. -/
theorem single_callback_five_event_bases :
    (∀ r ∈ regsOf (init_esp allOkEspEnv).1, r.1 = Handler.event_handler) ∧
    (regsOf (init_esp allOkEspEnv).1).map (fun r => r.2.1) =
      [EventBase.WIFI_PROV_EVENT, EventBase.PROTOCOMM_TRANSPORT_BLE_EVENT,
       EventBase.PROTOCOMM_SECURITY_SESSION_EVENT, EventBase.WIFI_EVENT,
       EventBase.IP_EVENT] ∧
    (∀ env : HandlerEnv,
      event_handler EventBase.WIFI_PROV_EVENT WIFI_PROV_START env ≠ [] ∧
      event_handler EventBase.WIFI_EVENT WIFI_EVENT_STA_DISCONNECTED env ≠ [] ∧
      event_handler EventBase.IP_EVENT IP_EVENT_STA_GOT_IP env ≠ [] ∧
      event_handler EventBase.PROTOCOMM_TRANSPORT_BLE_EVENT
        PROTOCOMM_TRANSPORT_BLE_CONNECTED env ≠ [] ∧
      event_handler EventBase.PROTOCOMM_SECURITY_SESSION_EVENT
        PROTOCOMM_SECURITY_SESSION_SETUP_OK env ≠ []) ∧
    (∀ (n : Nat) (id : Int) (env : HandlerEnv),
      event_handler (EventBase.other n) id env = []) := by
  refine ⟨by decide, by decide, ?_, ?_⟩
  · intro env
    refine ⟨?_, ?_, ?_, ?_, ?_⟩ <;>
      simp [event_handler, WIFI_PROV_START, WIFI_EVENT_STA_DISCONNECTED,
        WIFI_EVENT_STA_START, WIFI_EVENT_SCAN_DONE, IP_EVENT_STA_GOT_IP,
        PROTOCOMM_TRANSPORT_BLE_CONNECTED, PROTOCOMM_TRANSPORT_BLE_DISCONNECTED,
        PROTOCOMM_SECURITY_SESSION_SETUP_OK]
  · intro n id env
    simp [event_handler]

/-- Classification of the effects `event_handler` can emit: log lines and
the SDK calls `reset_sm_state_on_failure`, `reset_sm_state_for_reprovision`,
`deinit`, `is_provisioned`, `esp_wifi_connect`, plus the abort of the
`ESP_ERROR_CHECK` around `is_provisioned`. -/
def allowedEffect : Effect → Bool := fun e =>
  match e with
  | Effect.logI _ => true
  | Effect.logE _ => true
  | Effect.resetSmStateOnFailure => true
  | Effect.resetSmStateForReprovision => true
  | Effect.deinit => true
  | Effect.isProvisioned => true
  | Effect.wifiConnect => true
  | Effect.abort => true
  | _ => false

/-- Every effect of every invocation of `event_handler` is one of the
allowed kinds. -/
theorem event_handler_effects_all (base : EventBase) (id : Int) (env : HandlerEnv) :
    (event_handler base id env).all allowedEffect = true := by
  unfold event_handler
  split_ifs <;> simp [allowedEffect]

/-- C2 does not hold as stated: on `WIFI_PROV_CRED_SUCCESS` the event
handler issues `wifi_prov_mgr_reset_sm_state_for_reprovision`, an
SDK-state-touching call distinct from `start_provisioning`,
`reset_sm_state_on_failure` and `deinit`. -/
theorem event_handler_calls_reprovision_reset :
    Effect.resetSmStateForReprovision ∈
      event_handler EventBase.WIFI_PROV_EVENT WIFI_PROV_CRED_SUCCESS handlerEnv0 ∧
    Effect.resetSmStateForReprovision ≠ Effect.resetSmStateOnFailure ∧
    Effect.resetSmStateForReprovision ≠ Effect.deinit := by
  decide

/-- C2 (amended): beyond log lines, the only calls the event handler makes
into the SDK are `reset_sm_state_on_failure`, `reset_sm_state_for_reprovision`,
`deinit`, the query `is_provisioned` (whose `ESP_ERROR_CHECK` may abort) and
`esp_wifi_connect`; `start_provisioning` is issued by `init_prov`, not by
the handler. -/
theorem event_handler_effects_classified (base : EventBase) (id : Int)
    (env : HandlerEnv) (x : Effect) (hx : x ∈ event_handler base id env) :
    allowedEffect x = true :=
  List.all_eq_true.mp (event_handler_effects_all base id env) x hx

/-- Witness for `event_handler_effects_classified` at a concrete event. -/
theorem event_handler_effects_classified_witness :
    Effect.resetSmStateOnFailure ∈
      event_handler EventBase.WIFI_PROV_EVENT WIFI_PROV_CRED_FAIL handlerEnv0 ∧
    allowedEffect Effect.resetSmStateOnFailure = true :=
  ⟨by decide,
   event_handler_effects_classified EventBase.WIFI_PROV_EVENT WIFI_PROV_CRED_FAIL
     handlerEnv0 Effect.resetSmStateOnFailure (by decide)⟩

/-- Recognizer for the `wifi_prov_mgr_start_provisioning` effect. -/
def isStartProv : Effect → Bool := fun e =>
  match e with
  | Effect.startProvisioning _ _ _ _ => true
  | _ => false

/-- None of the effect kinds `event_handler` can emit is
`start_provisioning`. -/
theorem allowed_not_startProv (x : Effect) (h : allowedEffect x = true) :
    isStartProv x = false := by
  cases x <;> simp_all [allowedEffect, isStartProv]

/-- A `ProvEnv` in which every SDK call succeeds and the MAC is all zero. -/
def allOkProvEnv : ProvEnv :=
  { mgrInitRet := ESP_OK, mac := fun _ => 0, uuidRet := ESP_OK,
    endpointCreateRet := ESP_OK, autoStopRet := ESP_OK, startRet := ESP_OK }

/-- C3: on `WIFI_PROV_CRED_FAIL` the handler calls
`wifi_prov_mgr_reset_sm_state_on_failure`, on `WIFI_PROV_END` it calls
`wifi_prov_mgr_deinit`; `start_provisioning` is issued exactly once by
`init_prov` (when the checked calls before it succeed) and never by the
event handler. -/
theorem cred_fail_and_end_actions (env : HandlerEnv) (p : ProvEnv)
    (h1 : p.mgrInitRet = ESP_OK) (h2 : p.uuidRet = ESP_OK)
    (h3 : p.endpointCreateRet = ESP_OK) (h4 : p.autoStopRet = ESP_OK) :
    Effect.resetSmStateOnFailure ∈
      event_handler EventBase.WIFI_PROV_EVENT WIFI_PROV_CRED_FAIL env ∧
    Effect.deinit ∈ event_handler EventBase.WIFI_PROV_EVENT WIFI_PROV_END env ∧
    List.countP isStartProv (init_prov p).1 = 1 ∧
    (∀ (base : EventBase) (id : Int) (env2 : HandlerEnv),
      List.countP isStartProv (event_handler base id env2) = 0) := by
  refine ⟨?_, ?_, ?_, ?_⟩
  · simp [event_handler, WIFI_PROV_START, WIFI_PROV_CRED_RECV, WIFI_PROV_CRED_FAIL]
  · simp [event_handler, WIFI_PROV_START, WIFI_PROV_CRED_RECV, WIFI_PROV_CRED_FAIL,
      WIFI_PROV_CRED_SUCCESS, WIFI_PROV_END]
  · by_cases h5 : p.startRet = ESP_OK <;>
      simp [init_prov, seqList, seqc, espErrorCheck, h1, h2, h3, h4, h5,
        List.countP_cons, List.countP_append, isStartProv]
  · intro base id env2
    rw [List.countP_eq_zero]
    intro x hx
    have hall := List.all_eq_true.mp (event_handler_effects_all base id env2) x hx
    simp [allowed_not_startProv x hall]

/-- Witness for `cred_fail_and_end_actions` at concrete environments. -/
theorem cred_fail_and_end_actions_witness :
    allOkProvEnv.mgrInitRet = ESP_OK ∧ allOkProvEnv.uuidRet = ESP_OK ∧
    allOkProvEnv.endpointCreateRet = ESP_OK ∧ allOkProvEnv.autoStopRet = ESP_OK ∧
    (Effect.resetSmStateOnFailure ∈
       event_handler EventBase.WIFI_PROV_EVENT WIFI_PROV_CRED_FAIL handlerEnv0 ∧
     Effect.deinit ∈
       event_handler EventBase.WIFI_PROV_EVENT WIFI_PROV_END handlerEnv0 ∧
     List.countP isStartProv (init_prov allOkProvEnv).1 = 1 ∧
     (∀ (base : EventBase) (id : Int) (env2 : HandlerEnv),
       List.countP isStartProv (event_handler base id env2) = 0)) :=
  ⟨rfl, rfl, rfl, rfl,
   cred_fail_and_end_actions handlerEnv0 allOkProvEnv rfl rfl rfl rfl⟩

/-- C4: every invocation of `custom_prov_data_handler` either returns
`ESP_OK` with `*outbuf` a freshly allocated NUL-terminated copy of
`"SUCCESS"` and `*outlen = 8`, or returns `ESP_ERR_NO_MEM` exactly when the
`strdup` allocation fails (in which case `*outbuf` is the null pointer and
`*outlen` is never written). -/
theorem custom_prov_data_handler_spec (sid : Nat) (inbuf : Option (List Nat))
    (inlen : Int) (priv : Option Nat) (allocOk : Bool) :
    ((custom_prov_data_handler sid inbuf inlen priv allocOk).ret = ESP_OK ∨
     (custom_prov_data_handler sid inbuf inlen priv allocOk).ret = ESP_ERR_NO_MEM) ∧
    ((custom_prov_data_handler sid inbuf inlen priv allocOk).ret = ESP_ERR_NO_MEM ↔
      allocOk = false) ∧
    (allocOk = true →
      (custom_prov_data_handler sid inbuf inlen priv allocOk).ret = ESP_OK ∧
      (custom_prov_data_handler sid inbuf inlen priv allocOk).outbuf = some successBuf ∧
      (custom_prov_data_handler sid inbuf inlen priv allocOk).outlen = some 8) ∧
    (allocOk = false →
      (custom_prov_data_handler sid inbuf inlen priv allocOk).outbuf = none ∧
      (custom_prov_data_handler sid inbuf inlen priv allocOk).outlen = none) ∧
    successBuf = [83, 85, 67, 67, 69, 83, 83, 0] ∧
    successBuf.length = 8 := by
  cases allocOk <;>
    simp [custom_prov_data_handler, ESP_OK, ESP_ERR_NO_MEM, successBuf] <;>
    decide

/-- Witness for `custom_prov_data_handler_spec`: the success branch at a
concrete invocation. -/
theorem custom_prov_data_handler_spec_witness :
    (custom_prov_data_handler 7 (some [104, 105]) 2 none true).ret = ESP_OK ∧
    (custom_prov_data_handler 7 (some [104, 105]) 2 none true).outbuf = some successBuf ∧
    (custom_prov_data_handler 7 (some [104, 105]) 2 none true).outlen = some 8 :=
  (custom_prov_data_handler_spec 7 (some [104, 105]) 2 none true).2.2.1 rfl

/-- C9: the successful output of `custom_prov_data_handler` is independent
of all inputs — two successful invocations with arbitrary different
session ids, input buffers, lengths and private data produce identical
`*outbuf` contents and `*outlen`. -/
theorem custom_handler_output_independent
    (s1 s2 : Nat) (i1 i2 : Option (List Nat)) (l1 l2 : Int) (p1 p2 : Option Nat)
    (a1 a2 : Bool)
    (h1 : (custom_prov_data_handler s1 i1 l1 p1 a1).ret = ESP_OK)
    (h2 : (custom_prov_data_handler s2 i2 l2 p2 a2).ret = ESP_OK) :
    (custom_prov_data_handler s1 i1 l1 p1 a1).outbuf =
      (custom_prov_data_handler s2 i2 l2 p2 a2).outbuf ∧
    (custom_prov_data_handler s1 i1 l1 p1 a1).outlen =
      (custom_prov_data_handler s2 i2 l2 p2 a2).outlen ∧
    (custom_prov_data_handler s1 i1 l1 p1 a1).outbuf = some successBuf ∧
    (custom_prov_data_handler s1 i1 l1 p1 a1).outlen = some 8 := by
  cases a1 <;> cases a2 <;>
    simp_all [custom_prov_data_handler, ESP_OK, ESP_ERR_NO_MEM] <;>
    decide

/-- Witness for `custom_handler_output_independent` at two different
concrete invocations. -/
theorem custom_handler_output_independent_witness :
    (custom_prov_data_handler 1 (some [65]) 1 (some 9) true).ret = ESP_OK ∧
    (custom_prov_data_handler 2 none (-3) none true).ret = ESP_OK ∧
    ((custom_prov_data_handler 1 (some [65]) 1 (some 9) true).outbuf =
       (custom_prov_data_handler 2 none (-3) none true).outbuf ∧
     (custom_prov_data_handler 1 (some [65]) 1 (some 9) true).outlen =
       (custom_prov_data_handler 2 none (-3) none true).outlen ∧
     (custom_prov_data_handler 1 (some [65]) 1 (some 9) true).outbuf = some successBuf ∧
     (custom_prov_data_handler 1 (some [65]) 1 (some 9) true).outlen = some 8) :=
  ⟨rfl, rfl,
   custom_handler_output_independent 1 2 (some [65]) none 1 (-3) (some 9) none
     true true rfl rfl⟩

/-- The uppercase hexadecimal alphabet `%X` draws from. -/
def hexAlphabet : List Char := "0123456789ABCDEF".data

/-- Each digit `%02X` can print is an uppercase hexadecimal character. -/
theorem hexDigit_mem_fin : ∀ m : Fin 16, hexDigit m.val ∈ hexAlphabet := by
  decide

/-- Both characters `%02X` prints for a byte are uppercase hexadecimal. -/
theorem hex2_mem (b : Fin 256) : ∀ c ∈ hex2 b.val, c ∈ hexAlphabet := by
  intro c hc
  have hdiv : b.val / 16 < 16 := by omega
  have hmod : b.val % 16 < 16 := by omega
  simp only [hex2, List.mem_cons, List.not_mem_nil, or_false] at hc
  rcases hc with rfl | rfl
  · exact hexDigit_mem_fin ⟨b.val / 16, hdiv⟩
  · exact hexDigit_mem_fin ⟨b.val % 16, hmod⟩

/-- C8: with a buffer of size at least 16, `get_device_service_name` stores
the full formatted name: the 7-character prefix `"Kaivac_"` followed by the
two-uppercase-hex-digit values of MAC bytes 3, 4 and 5 separated by
underscores — 15 characters in all, so the 16-byte buffer of `init_prov`
suffers no truncation. -/
theorem get_device_service_name_spec (mac : Fin 6 → Fin 256) (max : Nat)
    (h : 16 ≤ max) :
    get_device_service_name mac max = service_name_formatted mac ∧
    (service_name_formatted mac).length = 15 ∧
    (∃ t, service_name_formatted mac = "Kaivac_".data ++ t) ∧
    (∀ i : Fin 6, (hex2 (mac i).val).length = 2 ∧
      ∀ c ∈ hex2 (mac i).val, c ∈ hexAlphabet) := by
  have hlen : (service_name_formatted mac).length = 15 := by
    simp [service_name_formatted, hex2]
  refine ⟨?_, hlen, ?_, ?_⟩
  · unfold get_device_service_name
    exact List.take_of_length_le (by omega)
  · exact ⟨hex2 (mac 3).val ++ ['_'] ++ hex2 (mac 4).val ++ ['_'] ++ hex2 (mac 5).val,
      by simp [service_name_formatted]⟩
  · intro i
    exact ⟨by simp [hex2], hex2_mem (mac i)⟩

/-- Witness for `get_device_service_name_spec` at the all-zero MAC and the
16-byte buffer `init_prov` uses. -/
theorem get_device_service_name_spec_witness :
    16 ≤ 16 ∧
    (get_device_service_name (fun _ => 0) 16 = service_name_formatted (fun _ => 0) ∧
     (service_name_formatted (fun _ => (0 : Fin 256))).length = 15 ∧
     (∃ t, service_name_formatted (fun _ => 0) = "Kaivac_".data ++ t) ∧
     (∀ i : Fin 6, (hex2 ((fun _ => (0 : Fin 256)) i).val).length = 2 ∧
       ∀ c ∈ hex2 ((fun _ => (0 : Fin 256)) i).val, c ∈ hexAlphabet)) :=
  ⟨by decide, get_device_service_name_spec (fun _ => 0) 16 (by decide)⟩

/-- The sequence of levels written by `gpio_set_level` in a trace. -/
def levelsOf (t : List Effect) : List Nat :=
  t.filterMap (fun e =>
    match e with
    | Effect.gpioSetLevel _ lv => some lv
    | _ => none)

/-- The inner blink loop writes `led, !led, !!led, ...` and ends with the
parity-flipped state: from `led ∈ {0,1}`, the `i`-th write is `(led + i) % 2`. -/
theorem blink_loop_levels : ∀ (m led : Nat), led ≤ 1 →
    levelsOf (blink_loop m led).1 = (List.range m).map (fun i => (led + i) % 2) ∧
    (blink_loop m led).2 = (led + m) % 2 := by
  intro m
  induction m with
  | zero =>
      intro led h
      refine ⟨by simp [blink_loop, levelsOf], ?_⟩
      simp only [blink_loop]
      omega
  | succ m ih =>
      intro led h
      have hl : lnot led ≤ 1 := by unfold lnot; split <;> omega
      obtain ⟨ih1, ih2⟩ := ih (lnot led) hl
      constructor
      · have hstep : levelsOf (blink_loop (m + 1) led).1 =
            led :: levelsOf (blink_loop m (lnot led)).1 := by
          simp [blink_loop, blink_step, levelsOf]
        rw [hstep, ih1, List.range_succ_eq_map, List.map_cons, List.map_map]
        have h0 : (led + 0) % 2 = led := by omega
        rw [h0]
        congr 1
        apply List.map_congr_left
        intro a _
        simp only [Function.comp_apply, Nat.succ_eq_add_one]
        unfold lnot
        split <;> omega
      · have hstep : (blink_loop (m + 1) led).2 = (blink_loop m (lnot led)).2 := by
          simp [blink_loop, blink_step]
        rw [hstep, ih2]
        unfold lnot
        split <;> omega

/-- Across `n` outer heartbeat iterations the `k`-th GPIO write has level
`(led + k) % 2`, and the LED state stays in `{0,1}`. -/
theorem app_main_loop_levels : ∀ (n led : Nat), led ≤ 1 →
    levelsOf (app_main_loop n led).1 =
      (List.range (n * 5)).map (fun i => (led + i) % 2) ∧
    (app_main_loop n led).2 = (led + n * 5) % 2 := by
  intro n
  induction n with
  | zero =>
      intro led h
      refine ⟨by simp [app_main_loop, levelsOf], ?_⟩
      simp only [app_main_loop]
      omega
  | succ n ih =>
      intro led h
      have hint : blink_interval.toNat = 5 := by decide
      obtain ⟨b1, b2⟩ := blink_loop_levels 5 led h
      have hb2le : (blink_loop 5 led).2 ≤ 1 := by rw [b2]; omega
      obtain ⟨ih1, ih2⟩ := ih (blink_loop 5 led).2 hb2le
      constructor
      · have hsteps : levelsOf (app_main_loop (n + 1) led).1 =
            levelsOf (blink_loop 5 led).1 ++
              levelsOf (app_main_loop n (blink_loop 5 led).2).1 := by
          simp [app_main_loop, outer_iteration, hint, levelsOf]
        rw [hsteps, b1, ih1, b2]
        have hsplit : (n + 1) * 5 = 5 + n * 5 := by ring
        rw [hsplit, List.range_add, List.map_append, List.map_map]
        congr 1
        apply List.map_congr_left
        intro a _
        simp only [Function.comp_apply]
        omega
      · have hstep : (app_main_loop (n + 1) led).2 =
            (app_main_loop n (blink_loop 5 led).2).2 := by
          simp [app_main_loop, outer_iteration, hint]
        rw [hstep, ih2, b2]
        have hsplit : (n + 1) * 5 = n * 5 + 5 := by ring
        rw [hsplit]
        omega

/-- C7: each inner blink iteration first writes the current `led_state` to
GPIO 5 and then negates it; starting from `led ∈ {0,1}` the state is always
0 or 1 and consecutive written levels always differ, so the LED blinks. -/
theorem heartbeat_blink_alternates (n led : Nat) (h : led ≤ 1) :
    (∀ l : Nat, (blink_step l).1.head? = some (Effect.gpioSetLevel 5 l) ∧
      (blink_step l).2 = lnot l) ∧
    levelsOf (app_main_loop n led).1 =
      (List.range (n * 5)).map (fun i => (led + i) % 2) ∧
    (∀ x ∈ levelsOf (app_main_loop n led).1, x ≤ 1) ∧
    (∀ i : Nat, i + 1 < n * 5 →
      (levelsOf (app_main_loop n led).1)[i]? ≠
        (levelsOf (app_main_loop n led).1)[i + 1]?) ∧
    (app_main_loop n led).2 ≤ 1 := by
  obtain ⟨h1, h2⟩ := app_main_loop_levels n led h
  refine ⟨fun l => ⟨rfl, rfl⟩, h1, ?_, ?_, by rw [h2]; omega⟩
  · intro x hx
    rw [h1] at hx
    simp only [List.mem_map, List.mem_range] at hx
    obtain ⟨i, _, rfl⟩ := hx
    omega
  · intro i hi
    rw [h1, List.getElem?_map, List.getElem?_map,
        List.getElem?_range (by omega : i < n * 5),
        List.getElem?_range (by omega : i + 1 < n * 5)]
    simp only [Option.map_some', ne_eq, Option.some.injEq]
    omega

/-- Witness for `heartbeat_blink_alternates` at one heartbeat iteration
starting from LED state 0. -/
theorem heartbeat_blink_alternates_witness :
    (0 : Nat) ≤ 1 ∧
    ((∀ l : Nat, (blink_step l).1.head? = some (Effect.gpioSetLevel 5 l) ∧
        (blink_step l).2 = lnot l) ∧
     levelsOf (app_main_loop 1 0).1 =
       (List.range (1 * 5)).map (fun i => (0 + i) % 2) ∧
     (∀ x ∈ levelsOf (app_main_loop 1 0).1, x ≤ 1) ∧
     (∀ i : Nat, i + 1 < 1 * 5 →
       (levelsOf (app_main_loop 1 0).1)[i]? ≠
         (levelsOf (app_main_loop 1 0).1)[i + 1]?) ∧
     (app_main_loop 1 0).2 ≤ 1) :=
  ⟨by decide, heartbeat_blink_alternates 1 0 (by decide)⟩

/-- Each inner blink iteration contributes two effects (write, delay). -/
theorem blink_loop_length : ∀ (m led : Nat), (blink_loop m led).1.length = m * 2 := by
  intro m
  induction m with
  | zero => intro led; simp [blink_loop]
  | succ m ih =>
      intro led
      simp [blink_loop, blink_step, ih]
      ring

/-- Each outer heartbeat iteration contributes eleven effects (one log line
plus five write/delay pairs). -/
theorem app_main_loop_length : ∀ (n led : Nat), (app_main_loop n led).1.length = n * 11 := by
  intro n
  induction n with
  | zero => intro led; simp [app_main_loop]
  | succ n ih =>
      intro led
      have hint : blink_interval.toNat = 5 := by decide
      simp [app_main_loop, outer_iteration, hint, blink_loop_length, ih]
      ring

/-- C5: when initialization completes, the trace of `app_main` is the
effects of `init_esp`, then those of `init_prov`, then the GPIO setup, then
the heartbeat loop — and the loop never exits: each further iteration
strictly lengthens the trace, so `app_main` never returns. -/
theorem app_main_order_and_loop (e : EspEnv) (p : ProvEnv) (n : Nat)
    (h1 : (init_esp e).2 = true) (h2 : (init_prov p).2 = true) :
    (app_main e p n).1 =
      (init_esp e).1 ++ ((init_prov p).1 ++
        (app_main_setup ++ (app_main_loop n 0).1)) ∧
    (app_main_loop n 0).1.length = n * 11 ∧
    (app_main e p n).1.length < (app_main e p (n + 1)).1.length := by
  have htr : ∀ m : Nat, (app_main e p m).1 =
      (init_esp e).1 ++ ((init_prov p).1 ++
        (app_main_setup ++ (app_main_loop m 0).1)) := by
    intro m
    simp [app_main, seqc, h1, h2]
  refine ⟨htr n, app_main_loop_length n 0, ?_⟩
  rw [htr n, htr (n + 1)]
  simp only [List.length_append, app_main_loop_length]
  omega

/-- Witness for `app_main_order_and_loop` at all-success environments and
one loop iteration. -/
theorem app_main_order_and_loop_witness :
    (init_esp allOkEspEnv).2 = true ∧ (init_prov allOkProvEnv).2 = true ∧
    ((app_main allOkEspEnv allOkProvEnv 1).1 =
       (init_esp allOkEspEnv).1 ++ ((init_prov allOkProvEnv).1 ++
         (app_main_setup ++ (app_main_loop 1 0).1)) ∧
     (app_main_loop 1 0).1.length = 1 * 11 ∧
     (app_main allOkEspEnv allOkProvEnv 1).1.length <
       (app_main allOkEspEnv allOkProvEnv 2).1.length) :=
  ⟨by decide, by decide,
   app_main_order_and_loop allOkEspEnv allOkProvEnv 1 (by decide) (by decide)⟩
